import Mathlib

/-!
Shallow embedding of the voxel spatial model, the DDA block-picking raycaster
and the player movement/collision controller of `asgn4.js`.

Modelling conventions:
* JavaScript numbers are modelled as exact rationals (`ℚ`); the decimal
  literals of the source (`1.7`, `-0.01`, `1e-4`, ...) become the
  corresponding exact rationals.
* The per-column `Uint8Array` bitmask `columnMask[z][x]` is modelled as a
  natural number queried with `Nat.testBit`; JavaScript's 32-bit `m & ~bit`
  is modelled as `m &&& (2^32 - 1 ^^^ bit)`, which agrees with the source on
  every bit the program reads (`y < MAX_H = 4`).
* The camera's derived `at`/`viewMatrix` fields are recomputed from
  eye/yaw/pitch on every change in the source and are not part of the state.
-/

namespace Asgn4

/-- World width, `WORLD_W = 32` in the source. -/
def WORLD_W : Int := 32

/-- World depth, `WORLD_D = 32` in the source. -/
def WORLD_D : Int := 32

/-- World height, `MAX_H = 4` in the source. -/
def MAX_H : Int := 4

/-- Camera height above the feet, `EYE_HEIGHT = 1.7`. -/
def EYE_HEIGHT : ℚ := 17/10

/-- Per-frame gravity acceleration, `GRAVITY = -0.01`. -/
def GRAVITY : ℚ := -(1/100)

/-- Terminal fall velocity, `MAX_FALL = -0.6`. -/
def MAX_FALL : ℚ := -(3/5)

/-- Total player body height, `PLAYER_HEIGHT = 1.8`. -/
def PLAYER_HEIGHT : ℚ := 9/5

/-- Maximum step-up height, `STEP_HEIGHT = 1.0`. -/
def STEP_HEIGHT : ℚ := 1

/-- Collision epsilon, `EPS = 1e-4`; the inline `1e-4` literals of the
source are the same value. -/
def EPS : ℚ := 1/10000

/-- The voxel world: `mask x z` is `columnMask[z][x]` (bit `y` set iff a
block occupies cell `(x,y,z)`), `blockType x z y` is `blockType[z][x][y]`. -/
structure World where
  mask : Int → Int → Nat
  blockType : Int → Int → Int → Int

/-- JavaScript helper `clamp(v, lo, hi) = Math.max(lo, Math.min(hi, v))`. -/
def jsClamp (v lo hi : Int) : Int := max lo (min hi v)

/-- The `tex` fields of the `BLOCKS` hotbar array, in order. -/
def BLOCKS_tex : List Int := [0, 1, 2, 3]

/-- Source `hasBlock(x,y,z)`: false out of range, else tests the occupancy bit. -/
def hasBlock (w : World) (x y z : Int) : Bool :=
  if x < 0 ∨ x ≥ WORLD_W ∨ z < 0 ∨ z ≥ WORLD_D ∨ y < 0 ∨ y ≥ MAX_H then false
  else (w.mask x z).testBit y.toNat

/-- Source `setBlock(x,y,z,on,slotIdx)`: returns the new world and the source's
boolean return value (`on` is renamed `onFlag`; `BLOCKS.length - 1 = 3`). -/
def setBlock (w : World) (x y z : Int) (onFlag : Bool) (slotIdx : Int) : World × Bool :=
  if x < 0 ∨ x ≥ WORLD_W ∨ z < 0 ∨ z ≥ WORLD_D ∨ y < 0 ∨ y ≥ MAX_H then (w, false)
  else
    let m := w.mask x z
    let bit : Nat := 1 <<< y.toNat
    if onFlag then
      let tex := BLOCKS_tex.getD (jsClamp slotIdx 0 3).toNat 0
      (⟨fun a b => if a = x ∧ b = z then m ||| bit else w.mask a b,
        fun a b c => if a = x ∧ b = z ∧ c = y then jsClamp tex 0 3 else w.blockType a b c⟩,
       true)
    else
      (⟨fun a b => if a = x ∧ b = z then m &&& (4294967295 ^^^ bit) else w.mask a b,
        fun a b c => if a = x ∧ b = z ∧ c = y then 0 else w.blockType a b c⟩,
       true)

/-- Source `inBoundsXZ(x, z)`. -/
def inBoundsXZ (x z : Int) : Bool :=
  decide (x ≥ 0) && decide (x < WORLD_W) && decide (z ≥ 0) && decide (z < WORLD_D)

/-- Upward scan helper for `columnHasAnyBlockInYRange`: checks the `n`
cells `lo, lo+1, ...` for a block. -/
def anyBlockUpAux (w : World) (x z : Int) : Int → Nat → Bool
  | _, 0 => false
  | lo, n+1 => hasBlock w x lo z || anyBlockUpAux w x z (lo + 1) n

/-- Source `columnHasAnyBlockInYRange(x,z,yMin,yMax)`: true when out of x/z range
(treated as a wall), else true iff some cell in
`[max 0 ⌊yMin⌋, min (MAX_H-1) ⌊yMax⌋]` is occupied. -/
def columnHasAnyBlockInYRange (w : World) (x z : Int) (yMin yMax : ℚ) : Bool :=
  if x < 0 ∨ x ≥ WORLD_W ∨ z < 0 ∨ z ≥ WORLD_D then true
  else
    let lo := max 0 ⌊yMin⌋
    let hi := min (MAX_H - 1) ⌊yMax⌋
    anyBlockUpAux w x z lo (hi + 1 - lo).toNat

/-- Source `canOccupyAt(x,z,eyeY)`: out of bounds blocks movement, else requires
no block in the body span `(feetY + EPS, headY - EPS)`. -/
def canOccupyAt (w : World) (x z : Int) (eyeY : ℚ) : Bool :=
  let feetY := eyeY - EYE_HEIGHT
  let headY := feetY + PLAYER_HEIGHT
  if x < 0 ∨ x ≥ WORLD_W ∨ z < 0 ∨ z ≥ WORLD_D then false
  else !(columnHasAnyBlockInYRange w x z (feetY + EPS) (headY - EPS))

/-- Downward scan helper: checks cells `n, n-1, ..., 0` and returns the
first (highest) occupied `y`, or `-1`. -/
def scanDownAux (w : World) (x z : Int) : Nat → Int
  | 0 => if hasBlock w x 0 z then 0 else -1
  | n+1 => if hasBlock w x ((n : Int) + 1) z then (n : Int) + 1 else scanDownAux w x z n

/-- Source `highestSolidYBelowFeet(x,z,feetY)`: highest occupied `y` with
`y ≤ min (MAX_H-1) ⌊feetY - 1e-4⌋`, or `-1`. -/
def highestSolidYBelowFeet (w : World) (x z : Int) (feetY : ℚ) : Int :=
  if inBoundsXZ x z = false then -1
  else
    let yMax := min (MAX_H - 1) ⌊feetY - EPS⌋
    if yMax < 0 then -1 else scanDownAux w x z yMax.toNat

/-- Source `floorSurfaceAt(x,z,feetY)`: the floor surface the feet would rest on,
`0` if none. -/
def floorSurfaceAt (w : World) (x z : Int) (feetY : ℚ) : ℚ :=
  let y := highestSolidYBelowFeet w x z feetY
  if y ≥ 0 then (y : ℚ) + 1 else 0

/-- Source `floorSurfaceAtWithinStep(x,z,feetY,stepHeight)`. -/
def floorSurfaceAtWithinStep (w : World) (x z : Int) (feetY stepHeight : ℚ) : ℚ :=
  floorSurfaceAt w x z (feetY + stepHeight + EPS)

/-- The mutable player state of the source: `camera.eye`, the look angles
`camera.yawDeg` / `camera.pitchDeg`, and the globals `velY` / `onGround`. -/
structure PState where
  eyeX : ℚ
  eyeY : ℚ
  eyeZ : ℚ
  yawDeg : ℚ
  pitchDeg : ℚ
  velY : ℚ
  onGround : Bool
deriving DecidableEq

/-- The velocity after the gravity integration of `updateVerticalPhysics`:
`velY += GRAVITY * dtScale; if (velY < MAX_FALL) velY = MAX_FALL`. -/
def tickVel (st : PState) (dtScale : ℚ) : ℚ :=
  let v := st.velY + GRAVITY * dtScale
  if v < MAX_FALL then MAX_FALL else v

/-- Upward ceiling sweep of `updateVerticalPhysics`: first occupied cell
among `y0, y0+1, ...` (`n` cells). -/
def ceilScanAux (w : World) (cx cz : Int) : Int → Nat → Option Int
  | _, 0 => none
  | y0, n+1 => if hasBlock w cx y0 cz then some y0 else ceilScanAux w cx cz (y0 + 1) n

/-- Downward floor sweep of `updateVerticalPhysics`: scanning
`y0, y0-1, ...` (`n` cells), the first occupied cell whose top surface
`y+1` lies in `[feetY - EPS, oldFeetY + EPS]`; returns that top. -/
def floorScanAux (w : World) (cx cz : Int) (oldFeetY feetY : ℚ) : Int → Nat → Option ℚ
  | _, 0 => none
  | y0, n+1 =>
    if hasBlock w cx y0 cz ∧ ((y0 : ℚ) + 1) ≤ oldFeetY + EPS ∧ ((y0 : ℚ) + 1) ≥ feetY - EPS
    then some ((y0 : ℚ) + 1)
    else floorScanAux w cx cz oldFeetY feetY (y0 - 1) n

/-- Source `updateVerticalPhysics(dtScale)`: gravity integration, swept ceiling
collision (only when moving up), swept floor collision (only when not
moving up), landing snap and grounded recomputation. -/
def updateVerticalPhysics (w : World) (st : PState) (dtScale : ℚ) : PState :=
  let cx := ⌊st.eyeX⌋
  let cz := ⌊st.eyeZ⌋
  if inBoundsXZ cx cz = false then st
  else
    let oldFeetY := st.eyeY - EYE_HEIGHT
    let oldHeadY := oldFeetY + PLAYER_HEIGHT
    let velY2 := tickVel st dtScale
    let eyeY1 := st.eyeY + velY2 * dtScale
    let newHeadY := eyeY1 - EYE_HEIGHT + PLAYER_HEIGHT
    let ceil : Option Int :=
      if velY2 > 0 then
        let yStart := max 0 ⌊oldHeadY + EPS⌋
        let yEnd := min (MAX_H - 1) ⌊newHeadY - EPS⌋
        ceilScanAux w cx cz yStart (yEnd + 1 - yStart).toNat
      else none
    let eyeY2 := match ceil with
      | some y => ((y : ℚ) - PLAYER_HEIGHT) + EYE_HEIGHT
      | none => eyeY1
    let velY3 : ℚ := match ceil with
      | some _ => 0
      | none => velY2
    let feetY := eyeY2 - EYE_HEIGHT
    if velY3 ≤ 0 then
      let yMax := min (MAX_H - 1) ⌊oldFeetY - EPS⌋
      let yMin := max 0 ⌊feetY - EPS⌋
      let landedSurface : ℚ :=
        (floorScanAux w cx cz oldFeetY feetY yMax (yMax + 1 - yMin).toNat).getD
          (floorSurfaceAt w cx cz (feetY + EPS))
      if feetY < landedSurface then
        { st with eyeY := landedSurface + EYE_HEIGHT, velY := 0, onGround := true }
      else if |feetY - landedSurface| < 1/1000 ∧ |velY3| < 1/1000000 then
        { st with eyeY := eyeY2, velY := velY3, onGround := true }
      else
        { st with eyeY := eyeY2, velY := velY3, onGround := false }
    else
      { st with eyeY := eyeY2, velY := velY3, onGround := false }

/-- The per-axis closure `attemptMoveTo(tx, tz)` inside `Camera.tryMove`:
returns the state after the attempt and whether the move committed. -/
def attemptMoveTo (w : World) (st : PState) (tx tz : ℚ) : PState × Bool :=
  let curCX := ⌊st.eyeX⌋
  let curCZ := ⌊st.eyeZ⌋
  let tgtCX := ⌊tx⌋
  let tgtCZ := ⌊tz⌋
  if tgtCX < 0 ∨ tgtCX ≥ WORLD_W ∨ tgtCZ < 0 ∨ tgtCZ ≥ WORLD_D then (st, false)
  else
    let curFeet := st.eyeY - EYE_HEIGHT
    let curFloor := floorSurfaceAt w curCX curCZ (curFeet + EPS)
    let tgtFloor := floorSurfaceAtWithinStep w tgtCX tgtCZ curFeet STEP_HEIGHT
    if st.onGround = true ∧ tgtFloor - curFloor > STEP_HEIGHT then (st, false)
    else
      let newEyeY :=
        if st.onGround = true then
          if tgtFloor > curFloor + EPS then tgtFloor + EYE_HEIGHT else st.eyeY
        else st.eyeY
      if canOccupyAt w tgtCX tgtCZ newEyeY = false then (st, false)
      else
        let onG := if st.onGround = true ∧ tgtFloor < curFloor - EPS then false
                   else st.onGround
        ({ st with eyeX := tx, eyeY := newEyeY, eyeZ := tz, onGround := onG }, true)

/-- Source `Camera.tryMove(deltaVec)`: an X-axis attempt from the current eye,
then a Z-axis attempt from the (possibly updated) eye. -/
def tryMove (w : World) (st : PState) (dx dz : ℚ) : PState :=
  let ez := st.eyeZ
  let st1 := (attemptMoveTo w st (st.eyeX + dx) ez).1
  (attemptMoveTo w st1 st1.eyeX (ez + dz)).1

/-- Source `Camera.addLookDeltaInstant(deltaYawDeg, deltaPitchDeg)`: additive yaw
and pitch deltas, with the pitch clamped to `[-89, 89]`. -/
def addLookDeltaInstant (st : PState) (deltaYawDeg deltaPitchDeg : ℚ) : PState :=
  let yaw := st.yawDeg + deltaYawDeg
  let p1 := st.pitchDeg + deltaPitchDeg
  let p2 := if p1 > 89 then (89 : ℚ) else p1
  let p3 := if p2 < -89 then (-89 : ℚ) else p2
  { st with yawDeg := yaw, pitchDeg := p3 }

/-- A voxel-ray hit: cell, entering face normal, travelled distance. -/
structure RayHit where
  x : Int
  y : Int
  z : Int
  nx : Int
  ny : Int
  nz : Int
  t : ℚ
deriving DecidableEq

/-- The loop state of the DDA traversal in `raycastVoxel`. -/
structure RayState where
  x : Int
  y : Int
  z : Int
  tMaxX : ℚ
  tMaxY : ℚ
  tMaxZ : ℚ
  t : ℚ
  nx : Int
  ny : Int
  nz : Int

/-- The source's `INF = 1e30` sentinel (used only as an effectively
infinite distance, never compared against reachable `t` values). -/
def INF : ℚ := 10 ^ 30

/-- One DDA step: advance along the axis with the smallest `tMax`. -/
def rayStep (stepX stepY stepZ : Int) (tDX tDY tDZ : ℚ) (s : RayState) : RayState :=
  if s.tMaxX < s.tMaxY ∧ s.tMaxX < s.tMaxZ then
    { s with t := s.tMaxX, tMaxX := s.tMaxX + tDX, x := s.x + stepX,
             nx := -stepX, ny := 0, nz := 0 }
  else if s.tMaxY < s.tMaxZ then
    { s with t := s.tMaxY, tMaxY := s.tMaxY + tDY, y := s.y + stepY,
             nx := 0, ny := -stepY, nz := 0 }
  else
    { s with t := s.tMaxZ, tMaxZ := s.tMaxZ + tDZ, z := s.z + stepZ,
             nx := 0, ny := 0, nz := -stepZ }

/-- The bounded DDA loop of `raycastVoxel` (`iter < 2048 && t <= maxDist`;
the in-bounds test before `hasBlock` in the source is the same test
`hasBlock` performs). -/
def rayLoop (w : World) (stepX stepY stepZ : Int) (tDX tDY tDZ maxDist : ℚ) :
    RayState → Nat → Option RayHit
  | _, 0 => none
  | s, n+1 =>
    if s.t ≤ maxDist then
      if hasBlock w s.x s.y s.z then some ⟨s.x, s.y, s.z, s.nx, s.ny, s.nz, s.t⟩
      else rayLoop w stepX stepY stepZ tDX tDY tDZ maxDist (rayStep stepX stepY stepZ tDX tDY tDZ s) n
    else none

/-- Source `raycastVoxel(maxDist)`, generalised over the ray origin and direction
(the source reads them from `camera.eye` and `camera.forwardDir()`). -/
def raycastVoxel (w : World) (ox oy oz dx dy dz maxDist : ℚ) : Option RayHit :=
  let x := ⌊ox⌋
  let y := ⌊oy⌋
  let z := ⌊oz⌋
  let stepX : Int := if dx > 0 then 1 else if dx < 0 then -1 else 0
  let stepY : Int := if dy > 0 then 1 else if dy < 0 then -1 else 0
  let stepZ : Int := if dz > 0 then 1 else if dz < 0 then -1 else 0
  let tDeltaX := if stepX = 0 then INF else |1 / dx|
  let tDeltaY := if stepY = 0 then INF else |1 / dy|
  let tDeltaZ := if stepZ = 0 then INF else |1 / dz|
  let nbX : Int := if stepX > 0 then x + 1 else x
  let nbY : Int := if stepY > 0 then y + 1 else y
  let nbZ : Int := if stepZ > 0 then z + 1 else z
  let tMaxX0 := if stepX = 0 then INF else ((nbX : ℚ) - ox) / dx
  let tMaxY0 := if stepY = 0 then INF else ((nbY : ℚ) - oy) / dy
  let tMaxZ0 := if stepZ = 0 then INF else ((nbZ : ℚ) - oz) / dz
  let tMaxX := if tMaxX0 < 0 then 0 else tMaxX0
  let tMaxY := if tMaxY0 < 0 then 0 else tMaxY0
  let tMaxZ := if tMaxZ0 < 0 then 0 else tMaxZ0
  rayLoop w stepX stepY stepZ tDeltaX tDeltaY tDeltaZ maxDist
    ⟨x, y, z, tMaxX, tMaxY, tMaxZ, 0, 0, 0, 0⟩ 2048

/-- The player's at-rest body span `[feetY, feetY + PLAYER_HEIGHT]` overlaps
(with nonempty interior) some occupied cell of the player's own column. -/
def atRestOverlapping (w : World) (st : PState) : Prop :=
  st.onGround = true ∧ st.velY = 0 ∧
  ∃ y : Int, hasBlock w ⌊st.eyeX⌋ y ⌊st.eyeZ⌋ = true ∧
    max (st.eyeY - EYE_HEIGHT) (y : ℚ) <
      min (st.eyeY - EYE_HEIGHT + PLAYER_HEIGHT) ((y : ℚ) + 1)

/-! Example worlds and player states used as concrete inputs. -/

/-- A world with no blocks at all. -/
def emptyWorld : World := ⟨fun _ _ => 0, fun _ _ _ => 0⟩

/-- A world whose only column is at `(16, 28)` with blocks at `y = 0, 1, 2`
(the cell `y = 2` is the standing player's feet cell). -/
def W1 : World := ⟨fun x z => if x = 16 ∧ z = 28 then 7 else 0, fun _ _ _ => 0⟩

/-- Player standing at eye `(16.5, 3.7, 28.5)` (feet at `y = 2`), at rest. -/
def P1 : PState := ⟨33/2, 37/10, 57/2, -90, 0, 0, true⟩

/-- A world whose only block is at `(16, 1, 28)` — a one-cell-thick floor. -/
def W2 : World := ⟨fun x z => if x = 16 ∧ z = 28 then 2 else 0, fun _ _ _ => 0⟩

/-- Player with eye `(16.5, 4.2, 28.5)` (feet at `y = 2.5`) falling at
`velY = -0.55`. -/
def PW2 : PState := ⟨33/2, 21/5, 57/2, -90, 0, -11/20, false⟩

/-- A world whose only block is at `(5, 0, 5)`. -/
def W3 : World := ⟨fun x z => if x = 5 ∧ z = 5 then 1 else 0, fun _ _ _ => 0⟩

/-- Columns at `z = 2`: `x = 1` has blocks `y = 0..2` (floor surface 3),
`x = 2` has a block at `y = 0` (floor surface 1), `x = 3` has blocks
`y = 0..1` (floor surface 2). -/
def W6 : World :=
  ⟨fun x z => if z = 2 then (if x = 1 then 7 else if x = 2 then 1 else if x = 3 then 3 else 0)
              else 0,
   fun _ _ _ => 0⟩

/-- Player grounded at eye `(2.5, 2.7, 2.5)` (feet at `y = 1`). -/
def P6 : PState := ⟨5/2, 27/10, 5/2, -90, 0, 0, true⟩

/-- Columns at `z = 2`: `x = 2` has blocks `y = 0..1` (floor surface 2),
`x = 3` has a block at `y = 0` (floor surface 1). -/
def W7 : World :=
  ⟨fun x z => if z = 2 then (if x = 2 then 3 else if x = 3 then 1 else 0) else 0,
   fun _ _ _ => 0⟩

/-- Player grounded at eye `(2.5, 3.7, 2.5)` (feet at `y = 2`). -/
def P7 : PState := ⟨5/2, 37/10, 5/2, -90, 0, 0, true⟩

/-- The initial camera pose of the source (`eye (16, 2, 28)`, `yawDeg -90`,
`pitchDeg 0`). -/
def P8 : PState := ⟨16, 2, 28, -90, 0, 0, false⟩

/-- Player whose eye cell is outside the x/z bounds. -/
def P10 : PState := ⟨-1, 2, 5, 0, 0, 0, false⟩

/-! Helper lemmas. -/

lemma hasBlock_eq_false {w : World} {x y z : Int}
    (h : x < 0 ∨ x ≥ WORLD_W ∨ z < 0 ∨ z ≥ WORLD_D ∨ y < 0 ∨ y ≥ MAX_H) :
    hasBlock w x y z = false := by
  unfold hasBlock
  rw [if_pos h]

lemma hasBlock_bounds {w : World} {x y z : Int} (h : hasBlock w x y z = true) :
    ¬(x < 0 ∨ x ≥ WORLD_W ∨ z < 0 ∨ z ≥ WORLD_D ∨ y < 0 ∨ y ≥ MAX_H) := by
  intro hc
  rw [hasBlock_eq_false hc] at h
  cases h

lemma canOccupyAt_bounds {w : World} {x z : Int} {eyeY : ℚ}
    (h : canOccupyAt w x z eyeY = true) :
    ¬(x < 0 ∨ x ≥ WORLD_W ∨ z < 0 ∨ z ≥ WORLD_D) := by
  intro hc
  unfold canOccupyAt at h
  rw [if_pos hc] at h
  cases h

/-- Claim C9: `updateVerticalPhysics` only writes the eye's y coordinate,
the vertical velocity and the grounded flag; the eye's x/z coordinates and
the yaw/pitch angles are untouched in every branch. -/
theorem updateVerticalPhysics_preserves_xz_yaw_pitch (w : World) (st : PState) (dtScale : ℚ) :
    (updateVerticalPhysics w st dtScale).eyeX = st.eyeX ∧
    (updateVerticalPhysics w st dtScale).eyeZ = st.eyeZ ∧
    (updateVerticalPhysics w st dtScale).yawDeg = st.yawDeg ∧
    (updateVerticalPhysics w st dtScale).pitchDeg = st.pitchDeg := by
  dsimp only [updateVerticalPhysics]
  repeat' split
  all_goals exact ⟨rfl, rfl, rfl, rfl⟩

/-- Claim C10: when the eye's cell is outside the x/z bounds,
`updateVerticalPhysics` returns immediately and the whole state (eye,
vertical velocity, grounded flag) is unchanged. -/
theorem updateVerticalPhysics_oob_noop (w : World) (st : PState) (dtScale : ℚ)
    (h : inBoundsXZ ⌊st.eyeX⌋ ⌊st.eyeZ⌋ = false) :
    updateVerticalPhysics w st dtScale = st := by
  dsimp only [updateVerticalPhysics]
  rw [h]
  simp

/-- Claim C10 witness at a concrete out-of-bounds state. -/
theorem updateVerticalPhysics_oob_noop_witness :
    inBoundsXZ ⌊P10.eyeX⌋ ⌊P10.eyeZ⌋ = false ∧
    updateVerticalPhysics emptyWorld P10 1 = P10 := by
  have h : inBoundsXZ ⌊P10.eyeX⌋ ⌊P10.eyeZ⌋ = false := by
    norm_num [inBoundsXZ, P10, WORLD_W, WORLD_D]
  exact ⟨h, updateVerticalPhysics_oob_noop emptyWorld P10 1 h⟩

/-- Claim C8 counterexample: from the initial orientation (pitch 0), the
look update with pitch delta `+100` leaves the pitch exactly at `89`, so
the pitch does not lie in the open interval `(-89, 89)` as claimed. -/
theorem addLookDeltaInstant_pitch_open_cex :
    (addLookDeltaInstant P8 0 100).pitchDeg = 89 ∧
    ¬((addLookDeltaInstant P8 0 100).pitchDeg < 89) := by
  norm_num [addLookDeltaInstant, P8]

/-- Claim C8 (amended): after every look update the pitch lies in the
closed interval `[-89, 89]` (the bound `89` itself is attainable), and the
yaw is updated additively without any bound. -/
theorem addLookDeltaInstant_pitch_clamped (st : PState) (dYaw dPitch : ℚ) :
    -89 ≤ (addLookDeltaInstant st dYaw dPitch).pitchDeg ∧
    (addLookDeltaInstant st dYaw dPitch).pitchDeg ≤ 89 ∧
    (addLookDeltaInstant st dYaw dPitch).yawDeg = st.yawDeg + dYaw := by
  dsimp only [addLookDeltaInstant]
  split_ifs <;> refine ⟨by linarith, by linarith, rfl⟩

/-- Claim C4: out-of-bounds coordinates read as unoccupied (`hasBlock`
false) but block movement (`columnHasAnyBlockInYRange` true,
`canOccupyAt` false), for every world and every input. -/
theorem oob_read_write_asymmetry (w : World) :
    (∀ x y z : Int,
      x < 0 ∨ x ≥ WORLD_W ∨ z < 0 ∨ z ≥ WORLD_D ∨ y < 0 ∨ y ≥ MAX_H →
      hasBlock w x y z = false) ∧
    (∀ x z : Int, x < 0 ∨ x ≥ WORLD_W ∨ z < 0 ∨ z ≥ WORLD_D →
      (∀ yMin yMax : ℚ, columnHasAnyBlockInYRange w x z yMin yMax = true) ∧
      (∀ eyeY : ℚ, canOccupyAt w x z eyeY = false)) := by
  refine ⟨fun x y z h => hasBlock_eq_false h, fun x z h => ⟨fun yMin yMax => ?_, fun eyeY => ?_⟩⟩
  · unfold columnHasAnyBlockInYRange
    rw [if_pos h]
  · unfold canOccupyAt
    rw [if_pos h]

/-- Claim C4 witness at the concrete out-of-bounds coordinate `x = -1`. -/
theorem oob_read_write_asymmetry_witness :
    hasBlock emptyWorld (-1) 0 0 = false ∧
    columnHasAnyBlockInYRange emptyWorld (-1) 0 0 3 = true ∧
    canOccupyAt emptyWorld (-1) 0 2 = false := by
  have h : (-1 : Int) < 0 ∨ (-1 : Int) ≥ WORLD_W ∨ (0 : Int) < 0 ∨ (0 : Int) ≥ WORLD_D :=
    Or.inl (by norm_num)
  exact ⟨(oob_read_write_asymmetry emptyWorld).1 (-1) 0 0 (Or.inl (by norm_num)),
    ((oob_read_write_asymmetry emptyWorld).2 (-1) 0 h).1 0 3,
    ((oob_read_write_asymmetry emptyWorld).2 (-1) 0 h).2 2⟩

lemma testBit_set_same (m k : Nat) : (m ||| 1 <<< k).testBit k = true := by
  simp [Nat.testBit_lor, Nat.shiftLeft_eq, Nat.testBit_two_pow_self]

lemma testBit_set_other (m : Nat) {j k : Nat} (h : j ≠ k) :
    (m ||| 1 <<< k).testBit j = m.testBit j := by
  simp [Nat.testBit_lor, Nat.shiftLeft_eq, Nat.testBit_two_pow_of_ne (Ne.symm h)]

lemma testBit_u32 {j : Nat} (h : j < 32) : Nat.testBit 4294967295 j = true := by
  have e : (4294967295 : Nat) = 2 ^ 32 - 1 := by norm_num
  rw [e, Nat.testBit_two_pow_sub_one]
  simpa using h

lemma testBit_clear_same (m : Nat) {k : Nat} (h : k < 32) :
    (m &&& (4294967295 ^^^ 1 <<< k)).testBit k = false := by
  simp [Nat.testBit_land, Nat.testBit_xor, Nat.shiftLeft_eq,
    Nat.testBit_two_pow_self, testBit_u32 h]

lemma testBit_clear_other (m : Nat) {j k : Nat} (hj : j < 32) (h : j ≠ k) :
    (m &&& (4294967295 ^^^ 1 <<< k)).testBit j = m.testBit j := by
  simp [Nat.testBit_land, Nat.testBit_xor, Nat.shiftLeft_eq,
    Nat.testBit_two_pow_of_ne (Ne.symm h), testBit_u32 hj]

/-- The material actually stored by `setBlock` on a set,
`clamp(BLOCKS[clamp(slotIdx,0,3)].tex, 0, 3)`, equals `clamp(slotIdx,0,3)`
because `BLOCKS[i].tex = i`. -/
lemma blocksTex_clamp (slot : Int) :
    jsClamp (BLOCKS_tex.getD (jsClamp slot 0 3).toNat 0) 0 3 = jsClamp slot 0 3 := by
  have h0 : 0 ≤ jsClamp slot 0 3 := le_max_left 0 _
  have h3 : jsClamp slot 0 3 ≤ 3 := max_le (by norm_num) (min_le_left 3 slot)
  set c := jsClamp slot 0 3 with hc
  interval_cases c <;> decide

lemma setBlock_unchanged_cells (w : World) (x y z slot : Int) (b : Bool) (x' y' z' : Int)
    (hne : ¬(x' = x ∧ y' = y ∧ z' = z)) :
    hasBlock (setBlock w x y z b slot).1 x' y' z' = hasBlock w x' y' z' ∧
    (setBlock w x y z b slot).1.blockType x' z' y' = w.blockType x' z' y' := by
  by_cases hin : x < 0 ∨ x ≥ WORLD_W ∨ z < 0 ∨ z ≥ WORLD_D ∨ y < 0 ∨ y ≥ MAX_H
  · simp [setBlock, hin]
  · have hne' : ¬(x' = x ∧ z' = z ∧ y' = y) := fun h => hne ⟨h.1, h.2.2, h.2.1⟩
    by_cases hxz : x' = x ∧ z' = z
    · have hyy : y' ≠ y := fun hy => hne ⟨hxz.1, hy, hxz.2⟩
      obtain ⟨h1, h2⟩ := hxz
      subst h1
      subst h2
      by_cases hb' : x' < 0 ∨ x' ≥ WORLD_W ∨ z' < 0 ∨ z' ≥ WORLD_D ∨ y' < 0 ∨ y' ≥ MAX_H
      · cases b <;> simp [setBlock, hasBlock, hin, hb', hne', hyy]
      · have hj32 : y'.toNat < 32 := by
          simp only [MAX_H] at hb'
          omega
        have hjk : y'.toNat ≠ y.toNat := by
          simp only [MAX_H] at hb' hin
          omega
        cases b <;>
          simp [setBlock, hasBlock, hin, hb', hne', hyy, testBit_set_other (w.mask x' z') hjk,
            testBit_clear_other (w.mask x' z') hj32 hjk]
    · cases b <;> simp [setBlock, hasBlock, hin, hxz, hne']

/-- Claim C5: within bounds, `setBlock(...,true,m)` makes `hasBlock` true
with the stored material `clamp(m,0,3)`; `setBlock(...,false)` makes it
false and resets the material to the default `0`; out of range `setBlock`
returns false and mutates nothing; a successful `setBlock` mutates exactly
one cell (every other cell keeps its occupancy and material). -/
theorem setBlock_hasBlock_roundtrip (w : World) (x y z slot : Int) :
    (¬(x < 0 ∨ x ≥ WORLD_W ∨ z < 0 ∨ z ≥ WORLD_D ∨ y < 0 ∨ y ≥ MAX_H) →
      (setBlock w x y z true slot).2 = true ∧
      hasBlock (setBlock w x y z true slot).1 x y z = true ∧
      (setBlock w x y z true slot).1.blockType x z y = jsClamp slot 0 3 ∧
      (setBlock w x y z false slot).2 = true ∧
      hasBlock (setBlock w x y z false slot).1 x y z = false ∧
      (setBlock w x y z false slot).1.blockType x z y = 0) ∧
    ((x < 0 ∨ x ≥ WORLD_W ∨ z < 0 ∨ z ≥ WORLD_D ∨ y < 0 ∨ y ≥ MAX_H) →
      ∀ b : Bool, setBlock w x y z b slot = (w, false)) ∧
    (∀ (b : Bool) (x' y' z' : Int), ¬(x' = x ∧ y' = y ∧ z' = z) →
      hasBlock (setBlock w x y z b slot).1 x' y' z' = hasBlock w x' y' z' ∧
      (setBlock w x y z b slot).1.blockType x' z' y' = w.blockType x' z' y') := by
  refine ⟨fun hin => ?_, fun hout b => ?_, fun b x' y' z' hne =>
    setBlock_unchanged_cells w x y z slot b x' y' z' hne⟩
  · have hk32 : y.toNat < 32 := by
      simp only [MAX_H] at hin
      omega
    simp [setBlock, hasBlock, hin, testBit_set_same,
      testBit_clear_same (w.mask x z) hk32]
    simpa using blocksTex_clamp slot
  · simp [setBlock, hout]

/-- Claim C5 witness at the concrete in-bounds cell `(1,2,3)` with the
out-of-range material slot `7` (clamped to `3`), plus an untouched
neighbouring cell, plus a concrete out-of-bounds no-op. -/
theorem setBlock_hasBlock_roundtrip_witness :
    hasBlock (setBlock emptyWorld 1 2 3 true 7).1 1 2 3 = true ∧
    (setBlock emptyWorld 1 2 3 true 7).1.blockType 1 3 2 = 3 ∧
    hasBlock (setBlock emptyWorld 1 2 3 false 7).1 1 2 3 = false ∧
    hasBlock (setBlock emptyWorld 1 2 3 true 7).1 1 1 3 = hasBlock emptyWorld 1 1 3 ∧
    setBlock emptyWorld (-2) 2 3 true 7 = (emptyWorld, false) := by
  have hin : ¬((1 : Int) < 0 ∨ (1 : Int) ≥ WORLD_W ∨ (3 : Int) < 0 ∨ (3 : Int) ≥ WORLD_D ∨
      (2 : Int) < 0 ∨ (2 : Int) ≥ MAX_H) := by
    simp only [WORLD_W, WORLD_D, MAX_H]
    omega
  have h := (setBlock_hasBlock_roundtrip emptyWorld 1 2 3 7).1 hin
  have hclamp : jsClamp 7 0 3 = 3 := by decide
  refine ⟨h.2.1, hclamp ▸ h.2.2.1, h.2.2.2.2.1, ?_, ?_⟩
  · exact ((setBlock_hasBlock_roundtrip emptyWorld 1 2 3 7).2.2 true 1 1 3
      (by intro hc; exact absurd hc.2.1 (by decide))).1
  · exact (setBlock_hasBlock_roundtrip emptyWorld (-2) 2 3 7).2.1
      (Or.inl (by norm_num)) true

lemma inBoundsXZ_eq_false {x z : Int}
    (h : x < 0 ∨ x ≥ WORLD_W ∨ z < 0 ∨ z ≥ WORLD_D) : inBoundsXZ x z = false := by
  simp only [inBoundsXZ, Bool.and_eq_false_iff, decide_eq_false_iff_not]
  simp only [WORLD_W, WORLD_D] at h ⊢
  omega

lemma floorSurfaceAt_nonneg (w : World) (x z : Int) (f : ℚ) :
    0 ≤ floorSurfaceAt w x z f := by
  unfold floorSurfaceAt
  dsimp only
  split
  · rename_i h
    have h' : (0 : ℚ) ≤ ((highestSolidYBelowFeet w x z f : Int) : ℚ) := by exact_mod_cast h
    linarith
  · exact le_refl 0

lemma floorSurfaceAt_oob (w : World) {x z : Int} (f : ℚ)
    (h : x < 0 ∨ x ≥ WORLD_W ∨ z < 0 ∨ z ≥ WORLD_D) : floorSurfaceAt w x z f = 0 := by
  unfold floorSurfaceAt highestSolidYBelowFeet
  rw [inBoundsXZ_eq_false h]
  simp

/-- Claim C6: for a grounded single-axis move with `stepHeight = 1`, a
target floor exactly `1` above the current floor is steppable (the move
commits with the eye snapped up to the target floor), while a target floor
more than `stepHeight` above the current floor rejects the move as a wall
(state unchanged). -/
theorem tryMove_step_up_boundary (w : World) (st : PState) (tx tz : ℚ)
    (hg : st.onGround = true) :
    (floorSurfaceAtWithinStep w ⌊tx⌋ ⌊tz⌋ (st.eyeY - EYE_HEIGHT) STEP_HEIGHT
        = floorSurfaceAt w ⌊st.eyeX⌋ ⌊st.eyeZ⌋ (st.eyeY - EYE_HEIGHT + EPS) + 1 →
      canOccupyAt w ⌊tx⌋ ⌊tz⌋
          (floorSurfaceAt w ⌊st.eyeX⌋ ⌊st.eyeZ⌋ (st.eyeY - EYE_HEIGHT + EPS) + 1
            + EYE_HEIGHT) = true →
      attemptMoveTo w st tx tz =
        ({ st with
            eyeX := tx,
            eyeY := floorSurfaceAt w ⌊st.eyeX⌋ ⌊st.eyeZ⌋ (st.eyeY - EYE_HEIGHT + EPS) + 1
              + EYE_HEIGHT,
            eyeZ := tz }, true)) ∧
    (floorSurfaceAtWithinStep w ⌊tx⌋ ⌊tz⌋ (st.eyeY - EYE_HEIGHT) STEP_HEIGHT
        - floorSurfaceAt w ⌊st.eyeX⌋ ⌊st.eyeZ⌋ (st.eyeY - EYE_HEIGHT + EPS) > STEP_HEIGHT →
      attemptMoveTo w st tx tz = (st, false)) := by
  constructor
  · intro htgt hocc
    have hb := canOccupyAt_bounds hocc
    have heps : (0 : ℚ) < EPS := by norm_num [EPS]
    dsimp only [attemptMoveTo]
    rw [htgt]
    split_ifs <;>
      first
        | rfl
        | (exact absurd (by assumption) hb)
        | (exact absurd hg (by assumption))
        | (exfalso
           simp only [STEP_HEIGHT, EPS] at *
           linarith)
        | simp_all
  · intro hwall
    by_cases hoob : ⌊tx⌋ < 0 ∨ ⌊tx⌋ ≥ WORLD_W ∨ ⌊tz⌋ < 0 ∨ ⌊tz⌋ ≥ WORLD_D
    · exfalso
      have h0 : floorSurfaceAtWithinStep w ⌊tx⌋ ⌊tz⌋ (st.eyeY - EYE_HEIGHT) STEP_HEIGHT = 0 :=
        floorSurfaceAt_oob w _ hoob
      have h1 := floorSurfaceAt_nonneg w ⌊st.eyeX⌋ ⌊st.eyeZ⌋ (st.eyeY - EYE_HEIGHT + EPS)
      rw [h0] at hwall
      simp only [STEP_HEIGHT] at hwall
      linarith
    · dsimp only [attemptMoveTo]
      rw [if_neg hoob]
      rw [if_pos ⟨hg, hwall⟩]

/-- Claim C6 witness: in `W6` from feet height 1 the column with floor
surface exactly 2 is stepped onto (eye snaps from 2.7 to 3.7), while the
column with floor surface 3 rejects the move. -/
theorem tryMove_step_up_boundary_witness :
    attemptMoveTo W6 P6 (7/2) (5/2) = (⟨7/2, 37/10, 5/2, -90, 0, 0, true⟩, true) ∧
    attemptMoveTo W6 P6 (3/2) (5/2) = (P6, false) := by
  have hcur : floorSurfaceAt W6 ⌊P6.eyeX⌋ ⌊P6.eyeZ⌋ (P6.eyeY - EYE_HEIGHT + EPS) = 1 := by
    norm_num +decide [floorSurfaceAt, highestSolidYBelowFeet, inBoundsXZ, scanDownAux,
      hasBlock, W6, P6, WORLD_W, WORLD_D, MAX_H, EPS, EYE_HEIGHT]
  constructor
  · have htgt : floorSurfaceAtWithinStep W6 ⌊(7/2 : ℚ)⌋ ⌊(5/2 : ℚ)⌋ (P6.eyeY - EYE_HEIGHT)
        STEP_HEIGHT = floorSurfaceAt W6 ⌊P6.eyeX⌋ ⌊P6.eyeZ⌋ (P6.eyeY - EYE_HEIGHT + EPS) + 1 := by
      rw [hcur]
      norm_num +decide [floorSurfaceAtWithinStep, floorSurfaceAt, highestSolidYBelowFeet,
        inBoundsXZ, scanDownAux, hasBlock, W6, P6, WORLD_W, WORLD_D, MAX_H, EPS,
        EYE_HEIGHT, STEP_HEIGHT]
    have hocc : canOccupyAt W6 ⌊(7/2 : ℚ)⌋ ⌊(5/2 : ℚ)⌋
        (floorSurfaceAt W6 ⌊P6.eyeX⌋ ⌊P6.eyeZ⌋ (P6.eyeY - EYE_HEIGHT + EPS) + 1
          + EYE_HEIGHT) = true := by
      rw [hcur]
      norm_num +decide [canOccupyAt, columnHasAnyBlockInYRange, anyBlockUpAux, hasBlock,
        W6, WORLD_W, WORLD_D, MAX_H, EPS, EYE_HEIGHT, PLAYER_HEIGHT]
    rw [(tryMove_step_up_boundary W6 P6 (7/2) (5/2) rfl).1 htgt hocc, hcur]
    norm_num [P6, EYE_HEIGHT]
  · refine (tryMove_step_up_boundary W6 P6 (3/2) (5/2) rfl).2 ?_
    rw [hcur]
    norm_num +decide [floorSurfaceAtWithinStep, floorSurfaceAt, highestSolidYBelowFeet,
      inBoundsXZ, scanDownAux, hasBlock, W6, P6, WORLD_W, WORLD_D, MAX_H, EPS,
      EYE_HEIGHT, STEP_HEIGHT]

/-- Claim C7: in a grounded single-axis move whose target floor is lower
than or equal to the current floor, the committed move keeps the eye y
coordinate unchanged (no snap down), and when the target floor is below
the current floor by more than `EPS` the grounded flag is cleared. -/
theorem tryMove_no_snap_down (w : World) (st : PState) (tx tz : ℚ)
    (hg : st.onGround = true)
    (hle : floorSurfaceAtWithinStep w ⌊tx⌋ ⌊tz⌋ (st.eyeY - EYE_HEIGHT) STEP_HEIGHT
        ≤ floorSurfaceAt w ⌊st.eyeX⌋ ⌊st.eyeZ⌋ (st.eyeY - EYE_HEIGHT + EPS))
    (hocc : canOccupyAt w ⌊tx⌋ ⌊tz⌋ st.eyeY = true) :
    (attemptMoveTo w st tx tz).2 = true ∧
    (attemptMoveTo w st tx tz).1.eyeY = st.eyeY ∧
    (attemptMoveTo w st tx tz).1.eyeX = tx ∧
    (attemptMoveTo w st tx tz).1.eyeZ = tz ∧
    (floorSurfaceAtWithinStep w ⌊tx⌋ ⌊tz⌋ (st.eyeY - EYE_HEIGHT) STEP_HEIGHT
        < floorSurfaceAt w ⌊st.eyeX⌋ ⌊st.eyeZ⌋ (st.eyeY - EYE_HEIGHT + EPS) - EPS →
      (attemptMoveTo w st tx tz).1.onGround = false) := by
  have hb := canOccupyAt_bounds hocc
  have key : attemptMoveTo w st tx tz =
      ({ st with
          eyeX := tx,
          eyeY := st.eyeY,
          eyeZ := tz,
          onGround :=
            if st.onGround = true ∧
                floorSurfaceAtWithinStep w ⌊tx⌋ ⌊tz⌋ (st.eyeY - EYE_HEIGHT) STEP_HEIGHT
                  < floorSurfaceAt w ⌊st.eyeX⌋ ⌊st.eyeZ⌋ (st.eyeY - EYE_HEIGHT + EPS) - EPS
            then false else st.onGround }, true) := by
    dsimp only [attemptMoveTo]
    split_ifs <;>
      first
        | rfl
        | (exact absurd (by assumption) hb)
        | (exact absurd hg (by assumption))
        | (exfalso
           simp only [STEP_HEIGHT, EPS] at *
           linarith)
        | simp_all
  rw [key]
  refine ⟨rfl, rfl, rfl, rfl, fun hlow => ?_⟩
  simp [hg, hlow]

/-- Claim C7 witness: in `W7`, moving from the floor-2 column onto the
floor-1 column commits with the eye y unchanged at 3.7 and clears the
grounded flag. -/
theorem tryMove_no_snap_down_witness :
    (attemptMoveTo W7 P7 (7/2) (5/2)).2 = true ∧
    (attemptMoveTo W7 P7 (7/2) (5/2)).1.eyeY = P7.eyeY ∧
    (attemptMoveTo W7 P7 (7/2) (5/2)).1.onGround = false := by
  have hle : floorSurfaceAtWithinStep W7 ⌊(7/2 : ℚ)⌋ ⌊(5/2 : ℚ)⌋ (P7.eyeY - EYE_HEIGHT)
      STEP_HEIGHT ≤ floorSurfaceAt W7 ⌊P7.eyeX⌋ ⌊P7.eyeZ⌋ (P7.eyeY - EYE_HEIGHT + EPS) := by
    norm_num +decide [floorSurfaceAtWithinStep, floorSurfaceAt, highestSolidYBelowFeet,
      inBoundsXZ, scanDownAux, hasBlock, W7, P7, WORLD_W, WORLD_D, MAX_H, EPS,
      EYE_HEIGHT, STEP_HEIGHT]
  have hocc : canOccupyAt W7 ⌊(7/2 : ℚ)⌋ ⌊(5/2 : ℚ)⌋ P7.eyeY = true := by
    norm_num +decide [canOccupyAt, columnHasAnyBlockInYRange, anyBlockUpAux, hasBlock,
      W7, P7, WORLD_W, WORLD_D, MAX_H, EPS, EYE_HEIGHT, PLAYER_HEIGHT]
  have h := tryMove_no_snap_down W7 P7 (7/2) (5/2) rfl hle hocc
  refine ⟨h.1, h.2.1, h.2.2.2.2 ?_⟩
  norm_num +decide [floorSurfaceAtWithinStep, floorSurfaceAt, highestSolidYBelowFeet,
    inBoundsXZ, scanDownAux, hasBlock, W7, P7, WORLD_W, WORLD_D, MAX_H, EPS,
    EYE_HEIGHT, STEP_HEIGHT]

/-- The downward floor sweep finds the one-cell floor `yf` whenever the
scan starts at or above `yf` with enough fuel to reach it, `yf`'s top
surface lies in the sweep window, and no occupied cell sits above `yf`. -/
lemma floorScanAux_finds (w : World) (cx cz : Int) (oldF newF : ℚ) (yf : Int)
    (hb : hasBlock w cx yf cz = true)
    (hw1 : (yf : ℚ) + 1 ≤ oldF + EPS) (hw2 : (yf : ℚ) + 1 ≥ newF - EPS)
    (habove : ∀ y : Int, yf < y → hasBlock w cx y cz = false) :
    ∀ (n : Nat) (y0 : Int), yf ≤ y0 → y0 < yf + (n : Int) →
      floorScanAux w cx cz oldF newF y0 n = some ((yf : ℚ) + 1) := by
  intro n
  induction n with
  | zero =>
    intro y0 h1 h2
    exfalso
    omega
  | succ n ih =>
    intro y0 h1 h2
    rcases eq_or_lt_of_le h1 with heq | hlt
    · subst heq
      unfold floorScanAux
      rw [if_pos ⟨hb, hw1, hw2⟩]
    · have hfalse := habove y0 hlt
      unfold floorScanAux
      rw [if_neg (fun hcontra => by
        rw [hfalse] at hcontra
        exact absurd hcontra.1 (by simp))]
      exact ih (y0 - 1) (by omega) (by omega)

/-- Claim C2: a falling tick whose displacement exceeds one full cell
(`tickVel * dtScale < -1`), over a column whose only block at or above the
crossing is a one-cell floor `yf` whose top `yf + 1` lies between the old
and new feet heights, lands exactly on that floor: feet snapped to
`yf + 1`, vertical velocity zeroed and grounded set — the same surface a
per-sub-step simulation would find, since `yf + 1` is the unique crossed
floor surface in the column. -/
theorem updateVerticalPhysics_no_tunneling (w : World) (st : PState) (dtScale : ℚ) (yf : Int)
    (hdt : 0 ≤ dtScale)
    (hin : inBoundsXZ ⌊st.eyeX⌋ ⌊st.eyeZ⌋ = true)
    (hb : hasBlock w ⌊st.eyeX⌋ yf ⌊st.eyeZ⌋ = true)
    (habove : ∀ y : Int, yf < y → hasBlock w ⌊st.eyeX⌋ y ⌊st.eyeZ⌋ = false)
    (hdisp : tickVel st dtScale * dtScale < -1)
    (hhi : (yf : ℚ) + 1 ≤ st.eyeY - EYE_HEIGHT)
    (hlo : st.eyeY - EYE_HEIGHT + tickVel st dtScale * dtScale < (yf : ℚ) + 1) :
    updateVerticalPhysics w st dtScale =
      { st with eyeY := (yf : ℚ) + 1 + EYE_HEIGHT, velY := 0, onGround := true } := by
  have heps : (0 : ℚ) < EPS := by norm_num [EPS]
  have heps1 : EPS ≤ 1 := by norm_num [EPS]
  have hv : tickVel st dtScale ≤ 0 := by
    by_contra hpos
    push_neg at hpos
    have := mul_nonneg (le_of_lt hpos) hdt
    linarith
  have hv' : ¬(tickVel st dtScale > 0) := not_lt.mpr hv
  have hbnd := hasBlock_bounds hb
  push_neg at hbnd
  have hyf0 : 0 ≤ yf := hbnd.2.2.2.2.1
  have hyf3 : yf ≤ MAX_H - 1 := by
    have := hbnd.2.2.2.2.2
    omega
  have hyMax : yf ≤ min (MAX_H - 1) ⌊st.eyeY - EYE_HEIGHT - EPS⌋ := by
    refine le_min hyf3 (Int.le_floor.mpr ?_)
    linarith
  have hyMin : max 0 ⌊st.eyeY + tickVel st dtScale * dtScale - EYE_HEIGHT - EPS⌋ ≤ yf := by
    refine max_le hyf0 ?_
    have : ⌊st.eyeY + tickVel st dtScale * dtScale - EYE_HEIGHT - EPS⌋ < yf + 1 := by
      rw [Int.floor_lt]
      push_cast
      linarith
    omega
  have hfuelcast :
      ((min (MAX_H - 1) ⌊st.eyeY - EYE_HEIGHT - EPS⌋ + 1
        - max 0 ⌊st.eyeY + tickVel st dtScale * dtScale - EYE_HEIGHT - EPS⌋).toNat : Int)
      = min (MAX_H - 1) ⌊st.eyeY - EYE_HEIGHT - EPS⌋ + 1
        - max 0 ⌊st.eyeY + tickVel st dtScale * dtScale - EYE_HEIGHT - EPS⌋ := by
    rw [Int.toNat_of_nonneg]
    omega
  have hscan := floorScanAux_finds w ⌊st.eyeX⌋ ⌊st.eyeZ⌋ (st.eyeY - EYE_HEIGHT)
    (st.eyeY + tickVel st dtScale * dtScale - EYE_HEIGHT) yf hb
    (by linarith) (by linarith) habove
    ((min (MAX_H - 1) ⌊st.eyeY - EYE_HEIGHT - EPS⌋ + 1
      - max 0 ⌊st.eyeY + tickVel st dtScale * dtScale - EYE_HEIGHT - EPS⌋).toNat)
    (min (MAX_H - 1) ⌊st.eyeY - EYE_HEIGHT - EPS⌋)
    hyMax
    (by omega)
  dsimp only [updateVerticalPhysics]
  rw [hin]
  rw [if_neg (by simp)]
  rw [if_neg hv']
  dsimp only
  rw [if_pos hv]
  rw [hscan]
  rw [Option.getD_some]
  rw [if_pos (by linarith)]

/-- Claim C2 witness: in `W2` (single floor block at `(16,1,28)`), a tick
with `dtScale = 2` from feet height 2.5 at `velY = -0.55` has displacement
`-1.14` (more than one cell) and lands exactly on the floor top `y = 2`. -/
theorem updateVerticalPhysics_no_tunneling_witness :
    tickVel PW2 2 * 2 < -1 ∧
    updateVerticalPhysics W2 PW2 2 = ⟨33/2, 37/10, 57/2, -90, 0, 0, true⟩ := by
  have hdisp : tickVel PW2 2 * 2 < -1 := by
    norm_num [tickVel, PW2, GRAVITY, MAX_FALL]
  have hin : inBoundsXZ ⌊PW2.eyeX⌋ ⌊PW2.eyeZ⌋ = true := by
    norm_num [inBoundsXZ, PW2, WORLD_W, WORLD_D]
  have hb : hasBlock W2 ⌊PW2.eyeX⌋ 1 ⌊PW2.eyeZ⌋ = true := by
    norm_num +decide [hasBlock, W2, PW2, WORLD_W, WORLD_D, MAX_H]
  have habove : ∀ y : Int, (1 : Int) < y → hasBlock W2 ⌊PW2.eyeX⌋ y ⌊PW2.eyeZ⌋ = false := by
    intro y hy
    rcases lt_or_ge y 4 with h4 | h4
    · interval_cases y <;> norm_num +decide [hasBlock, W2, PW2, WORLD_W, WORLD_D, MAX_H]
    · refine hasBlock_eq_false ?_
      simp only [MAX_H, WORLD_W, WORLD_D]
      omega
  have hhi : ((1 : Int) : ℚ) + 1 ≤ PW2.eyeY - EYE_HEIGHT := by
    norm_num [PW2, EYE_HEIGHT]
  have hlo : PW2.eyeY - EYE_HEIGHT + tickVel PW2 2 * 2 < ((1 : Int) : ℚ) + 1 := by
    norm_num [PW2, EYE_HEIGHT, tickVel, GRAVITY, MAX_FALL]
  have h := updateVerticalPhysics_no_tunneling W2 PW2 2 1 (by norm_num) hin hb habove
    hdisp hhi hlo
  refine ⟨hdisp, ?_⟩
  rw [h]
  norm_num [PW2, EYE_HEIGHT]

/-- Claim C1: a reachable counterexample to the at-rest non-overlap
invariant.  In `W1` the player's own column holds blocks at `y = 0,1,2`
(the block at `y = 2` sits in the feet cell, placed there by
`addBlockOnFace` aiming straight down, which only requires the block
centre to be at least 1 away from the eye — here the distance is 1.2).
After the next `updateVerticalPhysics` tick the player is grounded with
zero velocity while the body span `[2, 3.8]` overlaps the occupied cell
`y = 2`: the integrated step ends at rest overlapping an occupied cell. -/
theorem updateVerticalPhysics_rest_overlap_bug :
    updateVerticalPhysics W1 P1 1 = P1 ∧
    atRestOverlapping W1 (updateVerticalPhysics W1 P1 1) := by
  have hres : updateVerticalPhysics W1 P1 1 = P1 := by
    norm_num +decide [updateVerticalPhysics, tickVel, inBoundsXZ, floorScanAux, ceilScanAux,
      floorSurfaceAt, highestSolidYBelowFeet, scanDownAux, hasBlock, W1, P1,
      WORLD_W, WORLD_D, MAX_H, EPS, EYE_HEIGHT, GRAVITY, MAX_FALL, PLAYER_HEIGHT]
  refine ⟨hres, ?_⟩
  rw [hres]
  refine ⟨rfl, rfl, 2, ?_, ?_⟩
  · norm_num +decide [hasBlock, W1, P1, WORLD_W, WORLD_D, MAX_H]
  · norm_num [P1, EYE_HEIGHT, PLAYER_HEIGHT]

lemma rayLoop_down_step (w : World) (md : ℚ) (s : RayState) (n : Nat)
    (hle : s.t ≤ md) (hnb : hasBlock w s.x s.y s.z = false) :
    rayLoop w 0 (-1) 0 INF 1 INF md s (n + 1)
      = rayLoop w 0 (-1) 0 INF 1 INF md (rayStep 0 (-1) 0 INF 1 INF s) n := by
  conv_lhs => rw [rayLoop]
  rw [if_pos hle, hnb]
  simp

lemma rayLoop_down_hit (w : World) (md : ℚ) (s : RayState) (n : Nat)
    (hle : s.t ≤ md) (hb : hasBlock w s.x s.y s.z = true) :
    rayLoop w 0 (-1) 0 INF 1 INF md s (n + 1)
      = some ⟨s.x, s.y, s.z, s.nx, s.ny, s.nz, s.t⟩ := by
  conv_lhs => rw [rayLoop]
  rw [if_pos hle, hb]
  simp

/-- Claim C3: in the world whose only occupied cell is `(5,0,5)`, the ray
from `(5, 5, 5.5)` pointing straight down `(0,-1,0)` with any max distance
of at least 4 hits cell `(5,0,5)` with face normal `(0,1,0)` at travelled
distance exactly 4. -/
theorem raycastVoxel_single_cell_hit (maxDist : ℚ) (h : 4 ≤ maxDist) :
    raycastVoxel W3 5 5 (11/2) 0 (-1) 0 maxDist = some ⟨5, 0, 5, 0, 1, 0, 4⟩ := by
  have h0 : raycastVoxel W3 5 5 (11/2) 0 (-1) 0 maxDist
      = rayLoop W3 0 (-1) 0 INF 1 INF maxDist ⟨5, 5, 5, INF, 0, INF, 0, 0, 0, 0⟩ 2048 := by
    have hinf : ¬(INF < (0 : ℚ)) := by norm_num [INF]
    unfold raycastVoxel
    norm_num [hinf]
  have e1 : rayStep 0 (-1) 0 INF 1 INF ⟨5, 5, 5, INF, 0, INF, 0, 0, 0, 0⟩
      = ⟨5, 4, 5, INF, 1, INF, 0, 0, 1, 0⟩ := by
    norm_num [rayStep, INF]
  have e2 : rayStep 0 (-1) 0 INF 1 INF ⟨5, 4, 5, INF, 1, INF, 0, 0, 1, 0⟩
      = ⟨5, 3, 5, INF, 2, INF, 1, 0, 1, 0⟩ := by
    norm_num [rayStep, INF]
  have e3 : rayStep 0 (-1) 0 INF 1 INF ⟨5, 3, 5, INF, 2, INF, 1, 0, 1, 0⟩
      = ⟨5, 2, 5, INF, 3, INF, 2, 0, 1, 0⟩ := by
    norm_num [rayStep, INF]
  have e4 : rayStep 0 (-1) 0 INF 1 INF ⟨5, 2, 5, INF, 3, INF, 2, 0, 1, 0⟩
      = ⟨5, 1, 5, INF, 4, INF, 3, 0, 1, 0⟩ := by
    norm_num [rayStep, INF]
  have e5 : rayStep 0 (-1) 0 INF 1 INF ⟨5, 1, 5, INF, 4, INF, 3, 0, 1, 0⟩
      = ⟨5, 0, 5, INF, 5, INF, 4, 0, 1, 0⟩ := by
    norm_num [rayStep, INF]
  rw [h0]
  rw [rayLoop_down_step W3 maxDist ⟨5, 5, 5, INF, 0, INF, 0, 0, 0, 0⟩ 2047
    (by show (0 : ℚ) ≤ maxDist; linarith) (by decide), e1]
  rw [rayLoop_down_step W3 maxDist ⟨5, 4, 5, INF, 1, INF, 0, 0, 1, 0⟩ 2046
    (by show (0 : ℚ) ≤ maxDist; linarith) (by decide), e2]
  rw [rayLoop_down_step W3 maxDist ⟨5, 3, 5, INF, 2, INF, 1, 0, 1, 0⟩ 2045
    (by show (1 : ℚ) ≤ maxDist; linarith) (by decide), e3]
  rw [rayLoop_down_step W3 maxDist ⟨5, 2, 5, INF, 3, INF, 2, 0, 1, 0⟩ 2044
    (by show (2 : ℚ) ≤ maxDist; linarith) (by decide), e4]
  rw [rayLoop_down_step W3 maxDist ⟨5, 1, 5, INF, 4, INF, 3, 0, 1, 0⟩ 2043
    (by show (3 : ℚ) ≤ maxDist; linarith) (by decide), e5]
  rw [rayLoop_down_hit W3 maxDist ⟨5, 0, 5, INF, 5, INF, 4, 0, 1, 0⟩ 2042
    (by show (4 : ℚ) ≤ maxDist; linarith) (by decide)]

/-- Claim C3 witness at the source's default max distance `7`. -/
theorem raycastVoxel_single_cell_hit_witness :
    (4 : ℚ) ≤ 7 ∧ raycastVoxel W3 5 5 (11/2) 0 (-1) 0 7 = some ⟨5, 0, 5, 0, 1, 0, 4⟩ :=
  ⟨by norm_num, raycastVoxel_single_cell_hit 7 (by norm_num)⟩

end Asgn4
